import Mathlib

/-!
Shallow embedding of the transaction build pipeline of `barkprotocol/build`.

Two near-duplicate source variants exist: the TypeScript module `src/build.ts`
and the JavaScript module `src/unnamed/part_002` (named `build.js` in its
header).  The embedding models both: definitions without a `002` suffix follow
`src/build.ts`; definitions with a `002` suffix follow `src/unnamed/part_002`.

The RPC transport, the Solana web3 library and the fee oracle are external
collaborators; they are modelled as an explicit environment of response
functions (`Env`), and the library's wire serialization of a compiled
transaction is modelled by a deterministic concrete encoding
(`serializePayload`).  All other definitions are translated directly from the
source.
-/

namespace Build

/-- An instruction of the final sequence.  Caller instructions are opaque
(`user`); `ComputeBudgetProgram.setComputeUnitLimit({units})` is `budget` and
`ComputeBudgetProgram.setComputeUnitPrice({microLamports})` is `price`.  A
`price none` models a price directive whose micro-lamport value is the JS
`NaN` produced by a failed `parseInt`. -/
inductive Instr where
  | user (tag : ℕ)
  | budget (units : ℤ)
  | price (microLamports : Option ℤ)
deriving DecidableEq, Repr

/-- `true` exactly for a `setComputeUnitLimit` (budget) directive. -/
def Instr.isBudget : Instr → Bool
  | .budget _ => true
  | _ => false

/-- Response of `connection.simulateTransaction`: an error flag, the reported
log lines, and the consumed compute units. -/
structure SimResp where
  err : Bool
  logs : List String
  unitsConsumed : ℕ
deriving DecidableEq, Repr

/-- Outcome of the fee-oracle `fetch` as observed by `FeeEstimate`:
`transportFail` when the request or `response.json()` rejects; `ok none` when
the parsed body has no `result` field (reading `.priorityFeeEstimate` then
throws a TypeError); `ok (some none)` when `result` is present but
`priorityFeeEstimate` is absent (`parseInt(undefined)` is `NaN`);
`ok (some (some s))` when the estimate field holds the text `s`. -/
inductive FeeOutcome where
  | transportFail
  | ok (result : Option (Option String))
deriving DecidableEq, Repr

/-- JS `parseInt(s, 10)`: skip leading whitespace, read an optional sign and
then the longest leading digit run; `none` models the JS `NaN` result when no
digit is found. -/
def parseIntJs (s : String) : Option ℤ :=
  let cs := s.data.dropWhile (fun c => c = ' ' ∨ c = '\t' ∨ c = '\n' ∨ c = '\r')
  let signed : Bool × List Char :=
    match cs with
    | '-' :: r => (true, r)
    | '+' :: r => (false, r)
    | r => (false, r)
  let ds := signed.2.takeWhile Char.isDigit
  if ds.isEmpty then none
  else
    let v : ℤ := ds.foldl (fun a c => a * 10 + ((c.toNat : ℤ) - 48)) 0
    some (if signed.1 then -v else v)

/-- Result of `ComputeLimit`: either the optimized unit count (a number) or the
object `\x7b message, logs \x7d` returned when the simulation reports an
error. -/
inductive ComputeLimitResult where
  | units (n : ℤ)
  | failure (message : String) (logs : List String)
deriving DecidableEq, Repr

/-- `Build.ComputeLimit` of `src/build.ts` (lines 77-105): prepend a maximal
`setComputeUnitLimit({units: 1400000})` directive, simulate, and on success
return `Math.ceil(consumedUnits * tolerance)`; on a reported simulation error
return the failure object carrying the reported logs verbatim. -/
def ComputeLimit (instructions : List Instr) (tolerance : ℚ)
    (simulate : List Instr → SimResp) : ComputeLimitResult :=
  let simulationResult := simulate (Instr.budget 1400000 :: instructions)
  if simulationResult.err then
    .failure "Error during simulation" simulationResult.logs
  else
    .units ⌈(simulationResult.unitsConsumed : ℚ) * tolerance⌉

/-- `Build.ComputeLimit` of `src/unnamed/part_002` (lines 67-88): identical
logic, lower-case failure message. -/
def ComputeLimit002 (instructions : List Instr) (tolerance : ℚ)
    (simulate : List Instr → SimResp) : ComputeLimitResult :=
  let optiCuRes := simulate (Instr.budget 1400000 :: instructions)
  if optiCuRes.err then
    .failure "error during simulation" optiCuRes.logs
  else
    .units ⌈(optiCuRes.unitsConsumed : ℚ) * tolerance⌉

/-- `Build.FeeEstimate` of `src/build.ts` (lines 108-150): query the fee
oracle with the priority tier and the compiled instruction sequence; on any
thrown error (transport failure, or the TypeError from a missing `result`
field) the catch block throws `Failed to estimate fee`; otherwise
`parseInt` the estimate and return `Math.max(estimate, 10000)`.  `Except.ok
none` models the function returning the JS `NaN` (since `Math.max(NaN, 10000)`
is `NaN`), which the source does NOT treat as an error. -/
def FeeEstimate (priorityLevel : String) (instructions : List Instr)
    (oracle : String → List Instr → FeeOutcome) : Except String (Option ℤ) :=
  match oracle priorityLevel instructions with
  | .transportFail => .error "Failed to estimate fee"
  | .ok none => .error "Failed to estimate fee"
  | .ok (some none) => .ok none
  | .ok (some (some s)) =>
    match parseIntJs s with
    | none => .ok none
    | some feeEstimate => .ok (some (max feeEstimate 10000))

/-- `Build.FeeEstimate` of `src/unnamed/part_002` (lines 100-127): same logic
but with no try/catch, so the raw runtime errors propagate (modelled by
abstract error tags). -/
def FeeEstimate002 (priorityLevel : String) (instructions : List Instr)
    (oracle : String → List Instr → FeeOutcome) : Except String (Option ℤ) :=
  match oracle priorityLevel instructions with
  | .transportFail => .error "fetch rejected"
  | .ok none => .error "TypeError reading priorityFeeEstimate"
  | .ok (some none) => .ok none
  | .ok (some (some s)) =>
    match parseIntJs s with
    | none => .ok none
    | some estimatedFee => .ok (some (max estimatedFee 10000))

/-- The base64 alphabet used by `Buffer.toString("base64")`. -/
def base64Table : List Char :=
  "ABCDEFGHIJKLMNOPQRSTUVWXYZabcdefghijklmnopqrstuvwxyz0123456789+/".data

/-- Character of the base64 alphabet at index `n`. -/
def b64Char (n : ℕ) : Char := base64Table.getD n 'A'

/-- RFC 4648 base64 with padding, as produced by
`Buffer.from(bytes).toString("base64")`. -/
def base64Encode : List ℕ → String
  | [] => ""
  | [a] =>
    String.mk [b64Char (a / 4 % 64), b64Char (a % 4 * 16), '=', '=']
  | [a, b] =>
    String.mk [b64Char (a / 4 % 64), b64Char (a % 4 * 16 + b / 16),
      b64Char (b % 16 * 4), '=']
  | a :: b :: c :: rest =>
    String.mk [b64Char (a / 4 % 64), b64Char (a % 4 * 16 + b / 16),
      b64Char (b % 16 * 4 + c / 64), b64Char (c % 64)] ++ base64Encode rest

/-- The compiled (and possibly signed) `VersionedTransaction`: the
`TransactionMessage` contents (payer, recent blockhash, final instruction
sequence, lookup tables) plus whether `sign` was invoked on it. -/
structure TxPayload where
  payer : String
  blockhash : String
  instructions : List Instr
  tables : List ℕ
  signed : Bool
deriving DecidableEq, Repr

/-- Encoding of a string as length-prefixed character codes, used by the
serialization stand-in. -/
def encodeString (s : String) : List ℕ :=
  s.length :: s.data.map Char.toNat

/-- Encoding of an integer field of a directive. -/
def encodeInt (z : ℤ) : List ℕ :=
  if 0 ≤ z then [0, z.toNat] else [1, (-z).toNat]

/-- Encoding of one instruction (tag-determined length, hence uniquely
decodable in sequence). -/
def encodeInstr : Instr → List ℕ
  | .user tag => [0, tag]
  | .budget units => 2 :: encodeInt units
  | .price none => [3]
  | .price (some m) => 4 :: encodeInt m

/-- `VersionedTransaction.serialize()` of the web3 library, modelled as a
deterministic encoding of the compiled transaction's contents.  The library's
exact wire format is external to this repository; this stand-in preserves what
the claims need: the bytes are a function of the payload, and distinct final
instruction sequences produce distinct bytes. -/
def serializePayload (p : TxPayload) : List ℕ :=
  (if p.signed then [1] else [0]) ++ encodeString p.payer ++
    encodeString p.blockhash ++ (p.tables.length :: p.tables) ++
    (p.instructions.length :: (p.instructions.map encodeInstr).flatten)

/-- The value delivered to the caller on the success path: the structured
transaction object, its serialized bytes, or their base64 text. -/
inductive TxValue where
  | object (payload : TxPayload)
  | bytes (b : List ℕ)
  | text (s : String)
deriving DecidableEq, Repr

/-- Result of a `tx` call: a plain error object (`errorMsg`), the simulation
failure object carrying logs, a thrown JS error (`thrown`, the promise
rejects), a `\x7b message, transaction \x7d` success object, or — in the
`part_002` variant only — a bare serialized value returned without a wrapper
(`raw`). -/
inductive TxResult where
  | errorMsg (message : String)
  | simFailure (message : String) (logs : List String)
  | thrown (message : String)
  | success (message : String) (value : TxValue)
  | raw (value : TxValue)
deriving DecidableEq, Repr

/-- Which network estimation calls a `tx` run performed. -/
structure CallLog where
  simCalled : Bool
  feeCalled : Bool
deriving DecidableEq, Repr

/-- Observable outcome of a `tx` call: its result, which estimator calls were
made, and the state of the caller-supplied instructions array after the call
(the array the caller's `options.instructions` still references). -/
structure TxOutcome where
  result : TxResult
  calls : CallLog
  callerInstructions : List Instr
deriving DecidableEq, Repr

/-- The caller-supplied `TxOptions` object with the source's defaults
(`src/build.ts` lines 153-166).  `part_002` spells the lookup-table field
`tables` and defaults `tolerance` to the string `"1.1"`, which JS coerces back
to the same number under multiplication, so one record serves both
variants. -/
structure TxOptions where
  rpc : String := ""
  account : String := ""
  instructions : List Instr := []
  signers : Bool := false
  priority : String := "Medium"
  tolerance : ℚ := 11 / 10
  serialize : Bool := false
  encode : Bool := false
  table : List ℕ := []
  compute : Bool := true
  fees : Bool := true
deriving DecidableEq, Repr

/-- The external world of one `tx` call: the blockhash returned by
`getLatestBlockhash`, the dry-run response as a function of the simulated
instruction sequence, and the fee-oracle response as a function of the
requested tier and the instruction sequence compiled into the quoted
transaction. -/
structure Env where
  blockhash : String
  simulate : List Instr → SimResp
  feeOracle : String → List Instr → FeeOutcome

/-- Final stage of `src/build.ts` `tx` (lines 192-217): compile the message,
optionally sign, then apply the `serialize`/`encode` toggles.  With
`encode` and no `serialize`, `Buffer.from` receives the transaction object
itself and throws a TypeError. -/
def txStage3 (o : TxOptions) (env : Env) (txInstructions : List Instr)
    (calls : CallLog) : TxOutcome :=
  let payload : TxPayload :=
    { payer := o.account, blockhash := env.blockhash,
      instructions := txInstructions, tables := o.table, signed := o.signers }
  let value : TxValue :=
    if o.serialize then .bytes (serializePayload payload) else .object payload
  if o.encode then
    match value with
    | .bytes b =>
      { result := .success "Success" (.text (base64Encode b)),
        calls := calls, callerInstructions := o.instructions }
    | _ =>
      { result := .thrown "TypeError", calls := calls,
        callerInstructions := o.instructions }
  else
    { result := .success
        (if o.serialize then "Success" else "Transaction built successfully")
        value,
      calls := calls, callerInstructions := o.instructions }

/-- Fee stage of `src/build.ts` `tx` (lines 187-190): when `fees` is set,
estimate the priority fee over the current (possibly budget-augmented)
sequence and prepend the price directive; a thrown fee estimation error
rejects the whole call. -/
def txStage2 (o : TxOptions) (env : Env) (txInstructions : List Instr)
    (simCalled : Bool) : TxOutcome :=
  if o.fees then
    match FeeEstimate o.priority txInstructions env.feeOracle with
    | .error m =>
      { result := .thrown m, calls := ⟨simCalled, true⟩,
        callerInstructions := o.instructions }
    | .ok feeEstimate =>
      txStage3 o env (Instr.price feeEstimate :: txInstructions)
        ⟨simCalled, true⟩
  else
    txStage3 o env txInstructions ⟨simCalled, false⟩

/-- `Build.tx` of `src/build.ts` (lines 153-218).  The caller's array is
copied (`[...instructions]`) before any directive is prepended, so
`callerInstructions` is always the original list. -/
def tx (o : TxOptions) (env : Env) : TxOutcome :=
  if o.rpc = "" ∨ o.account = "" then
    { result := .errorMsg "Missing required parameters",
      calls := ⟨false, false⟩, callerInstructions := o.instructions }
  else if o.compute then
    match ComputeLimit o.instructions o.tolerance env.simulate with
    | .failure m logs =>
      { result := .simFailure m logs, calls := ⟨true, false⟩,
        callerInstructions := o.instructions }
    | .units u => txStage2 o env (Instr.budget u :: o.instructions) true
  else
    txStage2 o env o.instructions false

/-- Final stage of `src/unnamed/part_002` `tx` (lines 175-188): with
`serialize` the bare bytes (or their base64 text) are returned without a
message wrapper; without `serialize` the `encode` flag is ignored and the
structured object is returned.  `txInstructions` here IS the caller's array,
mutated in place by the earlier `unshift` calls. -/
def tx002Stage3 (o : TxOptions) (env : Env) (txInstructions : List Instr)
    (calls : CallLog) : TxOutcome :=
  let payload : TxPayload :=
    { payer := o.account, blockhash := env.blockhash,
      instructions := txInstructions, tables := o.table, signed := o.signers }
  if o.serialize then
    if o.encode then
      { result := .raw (.text (base64Encode (serializePayload payload))),
        calls := calls, callerInstructions := txInstructions }
    else
      { result := .raw (.bytes (serializePayload payload)), calls := calls,
        callerInstructions := txInstructions }
  else
    { result := .success "success" (.object payload), calls := calls,
      callerInstructions := txInstructions }

/-- Fee stage of `src/unnamed/part_002` `tx` (lines 170-173): the price
directive is unshifted into the caller's own array. -/
def tx002Stage2 (o : TxOptions) (env : Env) (priority : String)
    (txInstructions : List Instr) (simCalled : Bool) : TxOutcome :=
  if o.fees then
    match FeeEstimate002 priority txInstructions env.feeOracle with
    | .error m =>
      { result := .thrown m, calls := ⟨simCalled, true⟩,
        callerInstructions := txInstructions }
    | .ok priorityFee =>
      tx002Stage3 o env (Instr.price priorityFee :: txInstructions)
        ⟨simCalled, true⟩
  else
    tx002Stage3 o env txInstructions ⟨simCalled, false⟩

/-- `Build.tx` of `src/unnamed/part_002` (lines 134-189): separate
missing-field messages, the `Extreme` priority alias, a lower-case simulation
failure wrapper, and in-place `unshift` into the caller's array. -/
def tx002 (o : TxOptions) (env : Env) : TxOutcome :=
  if o.rpc = "" then
    { result := .errorMsg "missing rpc", calls := ⟨false, false⟩,
      callerInstructions := o.instructions }
  else if o.account = "" then
    { result := .errorMsg "missing account", calls := ⟨false, false⟩,
      callerInstructions := o.instructions }
  else
    let priority := if o.priority = "Extreme" then "VeryHigh" else o.priority
    if o.compute then
      match ComputeLimit002 o.instructions o.tolerance env.simulate with
      | .failure _ logs =>
        { result := .simFailure "error when simulating the transaction" logs,
          calls := ⟨true, false⟩, callerInstructions := o.instructions }
      | .units u =>
        tx002Stage2 o env priority (Instr.budget u :: o.instructions) true
    else
      tx002Stage2 o env priority o.instructions false

/-- What one `getSignatureStatuses` query observes at a tick: the call throws,
or it reports a status with a `finalized` confirmation flag and an attached
on-chain `err` flag (a non-finalized report covers `null` statuses and
lower commitment levels alike). -/
inductive QueryResp where
  | throws
  | report (finalized : Bool) (err : Bool)
deriving DecidableEq, Repr

/-- `true` when a query neither throws nor reports a finalized status, so the
poll loop keeps waiting. -/
def QueryResp.notDecisive : QueryResp → Bool
  | .throws => false
  | .report finalized _ => !finalized

/-- Tick loop of `Build.status` in `src/build.ts` (lines 43-74).  `resp k` is
what the query of tick `k` observes (the counter `start` equals the tick
number, since it increments once per tick from 1).  A throw is caught:
the promise resolves with `Error checking status` and the interval is
cleared.  The returned pair is the resolved message and the number of status
queries issued.  `fuel` bounds the recursion; `status` supplies enough for
every reachable run. -/
def statusAux (resp : ℕ → QueryResp) (maxA intS : ℕ) :
    ℕ → ℕ → Option (String × ℕ)
  | 0, _ => none
  | fuel + 1, start =>
    match resp start with
    | .throws => some ("Error checking status", start)
    | .report finalized er =>
      if finalized then
        some ((if er then "Program error!" else "Finalized"), start)
      else if start + 1 > maxA then
        some (toString (maxA * intS) ++ " seconds max wait reached", start)
      else
        statusAux resp maxA intS fuel (start + 1)

/-- `Build.status` of `src/build.ts`: the loop starts at tick 1 and can run at
most `max` ticks, so fuel `max + 1` is never exhausted. -/
def status (resp : ℕ → QueryResp) (maxA intS : ℕ) : Option (String × ℕ) :=
  statusAux resp maxA intS (maxA + 1) 1

/-- Tick loop of `Build.status` in `src/unnamed/part_002` (lines 25-55).
There is no try/catch: a rejected query leaves the promise unresolved, skips
the `start++`, and the interval keeps firing.  `qs` counts queries issued so
far (the query of the current tick is `resp (qs + 1)`).  `fuel` is the number
of further ticks observed; `(none, q)` means that within that window the poll
never resolved and issued `q` queries. -/
def status002Aux (resp : ℕ → QueryResp) (maxA intS : ℕ) :
    ℕ → ℕ → ℕ → Option String × ℕ
  | 0, _, qs => (none, qs)
  | fuel + 1, start, qs =>
    match resp (qs + 1) with
    | .throws => status002Aux resp maxA intS fuel start (qs + 1)
    | .report finalized er =>
      if finalized then
        (some (if er then "program error!" else "finalized"), qs + 1)
      else if start ≥ maxA then
        (some (toString (maxA * intS) ++ " seconds max wait reached"), qs + 1)
      else
        status002Aux resp maxA intS fuel (start + 1) (qs + 1)

/-- `Build.status` of `src/unnamed/part_002`, observed for `fuel` ticks from
its initial state (`start = 1`, no queries issued). -/
def status002 (resp : ℕ → QueryResp) (maxA intS fuel : ℕ) :
    Option String × ℕ :=
  status002Aux resp maxA intS fuel 1 0

/-- A fixed benign environment for concrete runs: simulation succeeds
consuming 100 units, the fee oracle answers `"20000"`. -/
def env0 : Env :=
  { blockhash := "BH",
    simulate := fun _ => { err := false, logs := [], unitsConsumed := 100 },
    feeOracle := fun _ _ => .ok (some (some "20000")) }

/-- An environment whose dry run reports an error with the spec's example
logs. -/
def envSimErr : Env :=
  { blockhash := "BH",
    simulate := fun _ =>
      { err := true, logs := ["log A", "log B"], unitsConsumed := 0 },
    feeOracle := fun _ _ => .ok (some (some "20000")) }

/-- A minimal valid request with one caller instruction and the source
defaults. -/
def opts0 : TxOptions :=
  { rpc := "r", account := "a", instructions := [Instr.user 5] }

/-- `opts0` with base64 encoding requested but serialization not requested. -/
def optsEncodeOnly : TxOptions :=
  { opts0 with
    serialize := false
    encode := true
    compute := false
    fees := false }

/-- `opts0` with both serialization and base64 encoding requested. -/
def optsEncodeSer : TxOptions :=
  { opts0 with
    serialize := true
    encode := true
    compute := false
    fees := false }

/-- `opts0` requesting serialized output (both optimizations on by
default). -/
def optsSer : TxOptions := { opts0 with serialize := true }

/-- `opts0` with fee optimization disabled. -/
def optsNoFees : TxOptions := { opts0 with fees := false }

theorem txStage3_callerInstructions (o : TxOptions) (env : Env)
    (l : List Instr) (c : CallLog) :
    (txStage3 o env l c).callerInstructions = o.instructions := by
  unfold txStage3
  dsimp only
  split
  · split <;> rfl
  · rfl

theorem txStage2_callerInstructions (o : TxOptions) (env : Env)
    (l : List Instr) (b : Bool) :
    (txStage2 o env l b).callerInstructions = o.instructions := by
  unfold txStage2
  split
  · split
    · rfl
    · exact txStage3_callerInstructions ..
  · exact txStage3_callerInstructions ..

theorem tx_callerInstructions (o : TxOptions) (env : Env) :
    (tx o env).callerInstructions = o.instructions := by
  unfold tx
  split
  · rfl
  · split
    · split
      · rfl
      · exact txStage2_callerInstructions ..
    · exact txStage2_callerInstructions ..

theorem tx002Stage3_callerInstructions (o : TxOptions) (env : Env)
    (l : List Instr) (c : CallLog) :
    (tx002Stage3 o env l c).callerInstructions = l := by
  unfold tx002Stage3
  split
  · split <;> rfl
  · rfl

theorem statusAux_step (resp : ℕ → QueryResp) (maxA intS fuel start : ℕ)
    (h : (resp start).notDecisive = true) (hlt : start + 1 ≤ maxA) :
    statusAux resp maxA intS (fuel + 1) start =
      statusAux resp maxA intS fuel (start + 1) := by
  cases hr : resp start with
  | throws => rw [hr] at h; simp [QueryResp.notDecisive] at h
  | report finalized er =>
    have hf : finalized = false := by
      rw [hr] at h; simpa [QueryResp.notDecisive] using h
    subst hf
    simp [statusAux, hr, Nat.not_lt.mpr hlt]

theorem statusAux_timeout (resp : ℕ → QueryResp) (maxA intS : ℕ) :
    ∀ (n f start : ℕ), start + n = maxA →
    (∀ k, start ≤ k → k ≤ maxA → (resp k).notDecisive = true) →
    statusAux resp maxA intS (n + (f + 1)) start =
      some (toString (maxA * intS) ++ " seconds max wait reached", maxA) := by
  intro n
  induction n with
  | zero =>
    intro f start hse hp
    have hs : start = maxA := by omega
    subst hs
    have hpk := hp start le_rfl le_rfl
    cases hr : resp start with
    | throws => rw [hr] at hpk; simp [QueryResp.notDecisive] at hpk
    | report finalized er =>
      have hf : finalized = false := by
        rw [hr] at hpk; simpa [QueryResp.notDecisive] using hpk
      subst hf
      simp [statusAux, hr, Nat.lt_succ_self]
  | succ n ih =>
    intro f start hse hp
    have hstep := statusAux_step resp maxA intS (n + (f + 1)) start
      (hp start le_rfl (by omega)) (by omega)
    have harith : n + 1 + (f + 1) = n + (f + 1) + 1 := by omega
    rw [harith, hstep]
    exact ih f (start + 1) (by omega) (fun k hk1 hk2 => hp k (by omega) hk2)

theorem statusAux_throwStop (resp : ℕ → QueryResp) (maxA intS : ℕ) :
    ∀ (n f start k : ℕ), start + n = k → k ≤ maxA →
    (∀ j, start ≤ j → j < k → (resp j).notDecisive = true) →
    resp k = QueryResp.throws →
    statusAux resp maxA intS (n + (f + 1)) start =
      some ("Error checking status", k) := by
  intro n
  induction n with
  | zero =>
    intro f start k hse hk hp ht
    have hs : start = k := by omega
    subst hs
    simp [statusAux, ht]
  | succ n ih =>
    intro f start k hse hk hp ht
    have hstep := statusAux_step resp maxA intS (n + (f + 1)) start
      (hp start le_rfl (by omega)) (by omega)
    have harith : n + 1 + (f + 1) = n + (f + 1) + 1 := by omega
    rw [harith, hstep]
    exact ih f (start + 1) k (by omega) hk
      (fun j hj1 hj2 => hp j (by omega) hj2) ht

theorem status002Aux_pendingRun (resp : ℕ → QueryResp) (maxA intS : ℕ) :
    ∀ (n f start : ℕ), 1 ≤ start → start + n = maxA →
    (∀ k, start ≤ k → k ≤ maxA → (resp k).notDecisive = true) →
    status002Aux resp maxA intS (n + (f + 1)) start (start - 1) =
      (some (toString (maxA * intS) ++ " seconds max wait reached"), maxA) := by
  intro n
  induction n with
  | zero =>
    intro f start h1 hse hp
    have hs : start = maxA := by omega
    subst hs
    have hidx : start - 1 + 1 = start := by omega
    have hpk := hp start le_rfl le_rfl
    cases hr : resp start with
    | throws => rw [hr] at hpk; simp [QueryResp.notDecisive] at hpk
    | report finalized er =>
      have hf : finalized = false := by
        rw [hr] at hpk; simpa [QueryResp.notDecisive] using hpk
      subst hf
      simp [status002Aux, hidx, hr, le_rfl]
  | succ n ih =>
    intro f start h1 hse hp
    have hidx : start - 1 + 1 = start := by omega
    have hpk := hp start le_rfl (by omega)
    cases hr : resp start with
    | throws => rw [hr] at hpk; simp [QueryResp.notDecisive] at hpk
    | report finalized er =>
      have hf : finalized = false := by
        rw [hr] at hpk; simpa [QueryResp.notDecisive] using hpk
      subst hf
      have harith : n + 1 + (f + 1) = n + (f + 1) + 1 := by omega
      rw [harith]
      have hge : ¬ start ≥ maxA := by omega
      simp only [status002Aux, hidx, hr, Bool.false_eq_true, if_false, hge,
        ite_false]
      have hrec := ih f (start + 1) (by omega) (by omega)
        (fun k hk1 hk2 => hp k (by omega) hk2)
      have hidx2 : start + 1 - 1 = start := by omega
      rw [hidx2] at hrec
      exact hrec

theorem status002Aux_allThrows (maxA intS : ℕ) :
    ∀ (fuel start qs : ℕ),
    status002Aux (fun _ => QueryResp.throws) maxA intS fuel start qs =
      (none, qs + fuel) := by
  intro fuel
  induction fuel with
  | zero => intro start qs; rfl
  | succ fuel ih =>
    intro start qs
    have hrec := ih start (qs + 1)
    have harith : qs + 1 + fuel = qs + (fuel + 1) := by omega
    rw [harith] at hrec
    simp only [status002Aux, hrec]

/-- Claim C1: if the dry-run simulation inside compute estimation reports an
error, then `tx` returns a failure result whose logs field equals exactly the
log lines reported by the simulation, and no fee estimation call is made
afterwards, for every valid request with compute optimization enabled — in
both source variants. -/
theorem sim_failure_propagates (o : TxOptions) (env : Env)
    (hr : o.rpc ≠ "") (ha : o.account ≠ "") (hc : o.compute = true)
    (herr : (env.simulate (Instr.budget 1400000 :: o.instructions)).err
      = true) :
    tx o env =
      { result := .simFailure "Error during simulation"
          (env.simulate (Instr.budget 1400000 :: o.instructions)).logs,
        calls := ⟨true, false⟩, callerInstructions := o.instructions } ∧
    tx002 o env =
      { result := .simFailure "error when simulating the transaction"
          (env.simulate (Instr.budget 1400000 :: o.instructions)).logs,
        calls := ⟨true, false⟩, callerInstructions := o.instructions } := by
  constructor
  · simp [tx, ComputeLimit, hr, ha, hc, herr]
  · simp [tx002, ComputeLimit002, hr, ha, hc, herr]

/-- Witness for C1: the spec's scenario — the dry run reports an error with
logs `["log A", "log B"]`; both variants return those logs verbatim and the
fee estimator is never invoked. -/
theorem sim_failure_propagates_witness :
    (envSimErr.simulate (Instr.budget 1400000 :: opts0.instructions)).err
      = true ∧
    tx opts0 envSimErr =
      { result := .simFailure "Error during simulation" ["log A", "log B"],
        calls := ⟨true, false⟩, callerInstructions := [Instr.user 5] } ∧
    tx002 opts0 envSimErr =
      { result := .simFailure "error when simulating the transaction"
          ["log A", "log B"],
        calls := ⟨true, false⟩, callerInstructions := [Instr.user 5] } :=
  ⟨rfl,
    (sim_failure_propagates opts0 envSimErr (by decide) (by decide) rfl
      rfl).1,
    (sim_failure_propagates opts0 envSimErr (by decide) (by decide) rfl
      rfl).2⟩

/-- Claim C2: with `maxAttempts = 10` and `intervalSeconds = 4`, when no query
reports a finalized status and none fails, the poller of `src/build.ts`
resolves with the message `40 seconds max wait reached` after exactly 10
status queries, and the `part_002` poller does the same within any observation
window of at least 10 ticks (so no 11th query is ever issued). -/
theorem poll_timeout_after_ten (resp : ℕ → QueryResp)
    (h : ∀ k, 1 ≤ k → k ≤ 10 → (resp k).notDecisive = true) :
    status resp 10 4 = some ("40 seconds max wait reached", 10) ∧
    ∀ f, 10 ≤ f →
      status002 resp 10 4 f = (some "40 seconds max wait reached", 10) := by
  constructor
  · have := statusAux_timeout resp 10 4 9 1 1 (by omega)
      (fun k hk1 hk2 => h k hk1 hk2)
    simpa [status] using this
  · intro f hf
    obtain ⟨g, rfl⟩ : ∃ g, f = 9 + (g + 1) := ⟨f - 10, by omega⟩
    have := status002Aux_pendingRun resp 10 4 9 g 1 le_rfl (by omega)
      (fun k hk1 hk2 => h k hk1 hk2)
    simpa [status002] using this

/-- Witness for C2: the always-pending response stream; both pollers stop at
exactly 10 queries with the 40-second timeout message, and an 11-tick window
issues no 11th query. -/
theorem poll_timeout_after_ten_witness :
    QueryResp.notDecisive (QueryResp.report false false) = true ∧
    status (fun _ => QueryResp.report false false) 10 4 =
      some ("40 seconds max wait reached", 10) ∧
    status002 (fun _ => QueryResp.report false false) 10 4 11 =
      (some "40 seconds max wait reached", 10) :=
  ⟨rfl,
    (poll_timeout_after_ten (fun _ => QueryResp.report false false)
      (fun _ _ _ => rfl)).1,
    (poll_timeout_after_ten (fun _ => QueryResp.report false false)
      (fun _ _ _ => rfl)).2 11 (by omega)⟩

/-- Counterexample to C3 as stated: in the `part_002` variant a failing query
does not stop the poller.  With every query throwing, an observation window of
3 ticks sees 3 status queries issued (two more after the first failure) and no
terminal result surfaced to the caller. -/
theorem poll_error_stops_counterexample :
    status002 (fun _ => QueryResp.throws) 10 4 1 = (none, 1) ∧
    status002 (fun _ => QueryResp.throws) 10 4 3 = (none, 3) := ⟨rfl, rfl⟩

/-- Claim C3 (amended): in the `src/build.ts` variant a failing status query
immediately resolves the poll with `Error checking status` and no further
query is issued; in the `part_002` variant the failure is unhandled — the
poller keeps issuing one query per observed tick and never resolves. -/
theorem poll_error_stops (resp : ℕ → QueryResp) (maxA intS k : ℕ)
    (h1 : 1 ≤ k) (hk : k ≤ maxA)
    (hp : ∀ j, 1 ≤ j → j < k → (resp j).notDecisive = true)
    (ht : resp k = QueryResp.throws) :
    status resp maxA intS = some ("Error checking status", k) ∧
    ∀ f, status002 (fun _ => QueryResp.throws) maxA intS f = (none, f) := by
  constructor
  · obtain ⟨g, hg⟩ : ∃ g, maxA + 1 = (k - 1) + (g + 1) := ⟨maxA + 1 - k, by
      omega⟩
    have := statusAux_throwStop resp maxA intS (k - 1) g 1 k (by omega) hk
      (fun j hj1 hj2 => hp j hj1 hj2) ht
    simpa [status, hg] using this
  · intro f
    have := status002Aux_allThrows maxA intS f 1 0
    simpa [status002] using this

/-- Witness for C3 (amended): the second query throws after a pending first
tick; the `build.ts` poller stops there with the error message (2 queries
total), while the `part_002` poller under constant failures has still resolved
nothing after a 4-tick window and has issued 4 queries. -/
theorem poll_error_stops_witness :
    (fun k => if k = 2 then QueryResp.throws
      else QueryResp.report false false) 2 = QueryResp.throws ∧
    status (fun k => if k = 2 then QueryResp.throws
      else QueryResp.report false false) 10 4 =
      some ("Error checking status", 2) ∧
    status002 (fun _ => QueryResp.throws) 10 4 4 = (none, 4) :=
  ⟨rfl,
    (poll_error_stops _ 10 4 2 (by omega) (by omega)
      (fun j hj1 hj2 => by interval_cases j; rfl) rfl).1,
    (poll_error_stops (fun k => if k = 2 then QueryResp.throws
      else QueryResp.report false false) 10 4 2 (by omega) (by omega)
      (fun j hj1 hj2 => by interval_cases j; rfl) rfl).2 4⟩

/-- Counterexample to C4 as stated: with `encode = true` and
`serialize = false` the result is NOT the base64 text of the serialized
transaction.  `src/build.ts` passes the unserialized transaction object to
`Buffer.from`, which throws a TypeError, so the call rejects instead of
matching the `serialize = true, encode = true` output; `part_002` ignores
`encode` entirely and returns the structured object. -/
theorem encode_implies_serialize_counterexample :
    (tx optsEncodeOnly env0).result = .thrown "TypeError" ∧
    (tx optsEncodeOnly env0).result ≠ (tx optsEncodeSer env0).result ∧
    (tx002 optsEncodeOnly env0).result = .success "success"
      (.object ⟨"a", "BH", [Instr.user 5], [], false⟩) := by
  refine ⟨rfl, ?_, rfl⟩
  decide

/-- Claim C4 (amended): `encode` does not imply `serialize`.  For every valid
request with `encode = true` and `serialize = false` (optimizations disabled
so the call reaches the output stage), the `src/build.ts` `tx` throws a
TypeError from `Buffer.from` on the unserialized object, and the `part_002`
`tx` ignores `encode`, returning the structured success object; base64 output
is produced only when `serialize` is also set. -/
theorem encode_requires_serialize (o : TxOptions) (env : Env)
    (hr : o.rpc ≠ "") (ha : o.account ≠ "") (hc : o.compute = false)
    (hf : o.fees = false) (hs : o.serialize = false) (he : o.encode = true) :
    (tx o env).result = .thrown "TypeError" ∧
    (tx002 o env).result = .success "success"
      (.object ⟨o.account, env.blockhash, o.instructions, o.table,
        o.signers⟩) := by
  constructor
  · simp [tx, txStage2, txStage3, hr, ha, hc, hf, hs, he]
  · simp [tx002, tx002Stage2, tx002Stage3, hr, ha, hc, hf, hs, he]

/-- Witness for C4 (amended): the concrete encode-without-serialize request;
`build.ts` rejects with a TypeError and `part_002` returns the bare
object. -/
theorem encode_requires_serialize_witness :
    (optsEncodeOnly.serialize = false ∧ optsEncodeOnly.encode = true) ∧
    (tx optsEncodeOnly env0).result = .thrown "TypeError" ∧
    (tx002 optsEncodeOnly env0).result = .success "success"
      (.object ⟨"a", "BH", [Instr.user 5], [], false⟩) :=
  ⟨⟨rfl, rfl⟩,
    encode_requires_serialize optsEncodeOnly env0 (by decide) (by decide)
      rfl rfl rfl rfl⟩

/-- Counterexample to C5 as stated: in the `part_002` variant, calling `tx`
twice with the same request object and an identical environment does not
yield byte-identical payloads.  The first call prepends the directives into
the caller's own instructions array, so the second call — whose request still
holds that same array — serializes a payload with the directives duplicated,
and the serialized bytes differ. -/
theorem build_idempotence_counterexample :
    (tx002 { optsSer with
        instructions := (tx002 optsSer env0).callerInstructions } env0).result
      ≠ (tx002 optsSer env0).result := by
  decide

/-- Claim C5 (amended): in the `src/build.ts` variant the claim holds —
`tx` copies the caller's array before prepending directives, so a second call
reusing the same request object (whose instructions array the first call left
untouched) against the same environment produces an identical outcome,
byte-identical payload included.  In the `part_002` variant the first call
mutates the request's instructions array, so reusing the request object
violates the identical-inputs premise and the second payload differs
(see the counterexample). -/
theorem build_idempotent_on_reuse (o : TxOptions) (env : Env) :
    tx { o with instructions := (tx o env).callerInstructions } env
      = tx o env := by
  rw [tx_callerInstructions]

/-- Counterexample to C6 as stated: a parse failure is not fatal.  When the
oracle responds with a `result.priorityFeeEstimate` field that cannot be
parsed as a number, `parseInt` yields `NaN`, `Math.max(NaN, 10000)` is `NaN`,
and both variants return it as a success value instead of surfacing an
error. -/
theorem fee_parse_failure_counterexample :
    FeeEstimate "Medium" [Instr.user 0]
      (fun _ _ => .ok (some (some "abc"))) = .ok none ∧
    FeeEstimate002 "Medium" [Instr.user 0]
      (fun _ _ => .ok (some (some "abc"))) = .ok none := ⟨rfl, rfl⟩

/-- Claim C6 (amended): transport failures and a missing `result` object are
fatal to `FeeEstimate` and surface as thrown errors, but a present
non-numeric (or absent) `priorityFeeEstimate` field is NOT: `parseInt`
produces `NaN`, which is returned silently as the fee value. -/
theorem fee_estimate_errors (priorityLevel : String) (instrs : List Instr)
    (oracle : String → List Instr → FeeOutcome) (s : String)
    (hs : parseIntJs s = none) :
    FeeEstimate priorityLevel instrs (fun _ _ => .transportFail)
      = .error "Failed to estimate fee" ∧
    FeeEstimate priorityLevel instrs (fun _ _ => .ok none)
      = .error "Failed to estimate fee" ∧
    FeeEstimate002 priorityLevel instrs (fun _ _ => .transportFail)
      = .error "fetch rejected" ∧
    (oracle priorityLevel instrs = .ok (some (some s)) →
      FeeEstimate priorityLevel instrs oracle = .ok none) ∧
    (oracle priorityLevel instrs = .ok (some none) →
      FeeEstimate priorityLevel instrs oracle = .ok none) := by
  refine ⟨rfl, rfl, rfl, ?_, ?_⟩
  · intro h
    simp [FeeEstimate, h, hs]
  · intro h
    simp [FeeEstimate, h]

/-- Witness for C6 (amended): the oracle answers `"abc"`; the estimate is not
a number, yet `FeeEstimate` returns success (the JS `NaN`). -/
theorem fee_estimate_errors_witness :
    parseIntJs "abc" = none ∧
    FeeEstimate "Medium" [Instr.user 0] (fun _ _ => .transportFail)
      = .error "Failed to estimate fee" ∧
    FeeEstimate "Medium" [Instr.user 0]
      (fun _ _ => .ok (some (some "abc"))) = .ok none :=
  ⟨rfl,
    (fee_estimate_errors "Medium" [Instr.user 0]
      (fun _ _ => .ok (some (some "abc"))) "abc" rfl).1,
    (fee_estimate_errors "Medium" [Instr.user 0]
      (fun _ _ => .ok (some (some "abc"))) "abc" rfl).2.2.2.1 rfl⟩

/-- Claim C7: for every valid request with both optimizations enabled whose
simulation and fee estimation succeed, the final instruction sequence handed
to the assembly stage is exactly
`[PriceDirective, BudgetDirective, ...originalInstructions]`, in both
variants. -/
theorem both_optimizations_order (o : TxOptions) (env : Env) (u : ℤ)
    (v : Option ℤ)
    (hr : o.rpc ≠ "") (ha : o.account ≠ "") (hc : o.compute = true)
    (hf : o.fees = true)
    (hsim : (env.simulate (Instr.budget 1400000 :: o.instructions)).err
      = false)
    (hu : u = ⌈((env.simulate
      (Instr.budget 1400000 :: o.instructions)).unitsConsumed : ℚ)
        * o.tolerance⌉)
    (hfee : FeeEstimate o.priority (Instr.budget u :: o.instructions)
      env.feeOracle = .ok v)
    (hfee2 : FeeEstimate002
      (if o.priority = "Extreme" then "VeryHigh" else o.priority)
      (Instr.budget u :: o.instructions) env.feeOracle = .ok v) :
    tx o env = txStage3 o env
      (Instr.price v :: Instr.budget u :: o.instructions) ⟨true, true⟩ ∧
    tx002 o env = tx002Stage3 o env
      (Instr.price v :: Instr.budget u :: o.instructions) ⟨true, true⟩ := by
  constructor
  · simp [tx, ComputeLimit, txStage2, hr, ha, hc, hf, hsim, ← hu, hfee]
  · simp [tx002, ComputeLimit002, tx002Stage2, hr, ha, hc, hf, hsim, ← hu,
      hfee2]

/-- Witness for C7: simulation consumes 100 units (tolerance 1.1, so the
budget directive carries 110) and the oracle answers 20000; the final
sequence is `[price 20000, budget 110, user 5]` in both variants. -/
theorem both_optimizations_order_witness :
    (env0.simulate (Instr.budget 1400000 :: opts0.instructions)).err
      = false ∧
    FeeEstimate "Medium" [Instr.budget 110, Instr.user 5] env0.feeOracle
      = .ok (some 20000) ∧
    tx opts0 env0 = txStage3 opts0 env0
      [Instr.price (some 20000), Instr.budget 110, Instr.user 5]
      ⟨true, true⟩ ∧
    tx002 opts0 env0 = tx002Stage3 opts0 env0
      [Instr.price (some 20000), Instr.budget 110, Instr.user 5]
      ⟨true, true⟩ ∧
    (tx opts0 env0).result = .success "Transaction built successfully"
      (.object ⟨"a", "BH",
        [Instr.price (some 20000), Instr.budget 110, Instr.user 5], [],
        false⟩) := by
  have h := both_optimizations_order opts0 env0 110 (some 20000) (by decide)
    (by decide) rfl rfl rfl (by
      show (110 : ℤ) = ⌈((100 : ℕ) : ℚ) * ((11 : ℚ) / 10)⌉
      norm_num) rfl rfl
  exact ⟨rfl, rfl, h.1, h.2, by rw [h.1]; rfl⟩

/-- The default-toggle run of `tx` over `env0` reaches the assembly stage
with the sequence `[price 20000, budget 110, user 5]`. -/
theorem tx_opts0_run : tx opts0 env0 = txStage3 opts0 env0
    [Instr.price (some 20000), Instr.budget 110, Instr.user 5]
    ⟨true, true⟩ := by
  have h110 : ⌈((env0.simulate
      (Instr.budget 1400000 :: opts0.instructions)).unitsConsumed : ℚ)
        * opts0.tolerance⌉ = (110 : ℤ) := by
    show ⌈((100 : ℕ) : ℚ) * ((11 : ℚ) / 10)⌉ = (110 : ℤ)
    norm_num
  simp [tx, ComputeLimit, txStage2, h110,
    show opts0.rpc = "r" from rfl, show opts0.account = "a" from rfl,
    show opts0.compute = true from rfl, show opts0.fees = true from rfl,
    show (env0.simulate (Instr.budget 1400000 :: opts0.instructions)).err
      = false from rfl,
    show FeeEstimate opts0.priority
      (Instr.budget 110 :: opts0.instructions) env0.feeOracle
      = .ok (some 20000) from rfl]
  rfl

/-- Counterexample to C8 as stated: with compute optimization enabled and a
successful simulation, but fee optimization also enabled (the source's
default), the FIRST instruction of the final sequence is the price directive,
not a `BudgetDirective`. -/
theorem budget_first_counterexample :
    (tx opts0 env0).result = .success "Transaction built successfully"
      (.object ⟨"a", "BH",
        [Instr.price (some 20000), Instr.budget 110, Instr.user 5], [],
        false⟩) ∧
    opts0.compute = true ∧
    Instr.isBudget (Instr.price (some 20000)) = false := by
  refine ⟨?_, rfl, rfl⟩
  rw [tx_opts0_run]
  rfl

/-- Claim C8 (amended): for every valid request with compute optimization
enabled whose simulation succeeds, the sequence is augmented with a
`BudgetDirective` whose unit value is `ceil(simulatedConsumedUnits *
tolerance)` placed immediately before the original instructions; it is the
first instruction exactly when fee optimization is disabled (with fees
enabled the price directive precedes it). -/
theorem budget_directive_value (o : TxOptions) (env : Env) (u : ℤ)
    (hr : o.rpc ≠ "") (ha : o.account ≠ "") (hc : o.compute = true)
    (hsim : (env.simulate (Instr.budget 1400000 :: o.instructions)).err
      = false)
    (hu : u = ⌈((env.simulate
      (Instr.budget 1400000 :: o.instructions)).unitsConsumed : ℚ)
        * o.tolerance⌉) :
    ComputeLimit o.instructions o.tolerance env.simulate = .units u ∧
    ComputeLimit002 o.instructions o.tolerance env.simulate = .units u ∧
    (o.fees = false →
      tx o env = txStage3 o env (Instr.budget u :: o.instructions)
        ⟨true, false⟩) ∧
    (∀ v, o.fees = true →
      FeeEstimate o.priority (Instr.budget u :: o.instructions)
        env.feeOracle = .ok v →
      tx o env = txStage3 o env
        (Instr.price v :: Instr.budget u :: o.instructions) ⟨true, true⟩) := by
  refine ⟨?_, ?_, ?_, ?_⟩
  · simp [ComputeLimit, hsim, hu]
  · simp [ComputeLimit002, hsim, hu]
  · intro hf
    simp [tx, ComputeLimit, txStage2, hr, ha, hc, hf, hsim, ← hu]
  · intro v hf hfee
    simp [tx, ComputeLimit, txStage2, hr, ha, hc, hf, hsim, ← hu, hfee]

/-- Witness for C8 (amended): with fee optimization disabled, the final
sequence starts with the budget directive of `ceil(100 * 1.1) = 110`
units. -/
theorem budget_directive_value_witness :
    (env0.simulate (Instr.budget 1400000 :: optsNoFees.instructions)).err
      = false ∧
    (110 : ℤ) = ⌈((env0.simulate
      (Instr.budget 1400000 :: optsNoFees.instructions)).unitsConsumed : ℚ)
        * optsNoFees.tolerance⌉ ∧
    tx optsNoFees env0 = txStage3 optsNoFees env0
      [Instr.budget 110, Instr.user 5] ⟨true, false⟩ ∧
    (tx optsNoFees env0).result = .success "Transaction built successfully"
      (.object ⟨"a", "BH", [Instr.budget 110, Instr.user 5], [], false⟩) ∧
    Instr.isBudget (Instr.budget 110) = true := by
  have hu : (110 : ℤ) = ⌈((env0.simulate
      (Instr.budget 1400000 :: optsNoFees.instructions)).unitsConsumed : ℚ)
        * optsNoFees.tolerance⌉ := by
    show (110 : ℤ) = ⌈((100 : ℕ) : ℚ) * ((11 : ℚ) / 10)⌉
    norm_num
  have h := (budget_directive_value optsNoFees env0 110 (by decide)
    (by decide) rfl rfl hu).2.2.1 rfl
  exact ⟨rfl, hu, h, by rw [h]; rfl, rfl⟩

/-- Claim C9: for every oracle response whose estimate parses to a number
`n`, `FeeEstimate` returns `max n 10000` in both variants; in particular an
estimate below the 10000 micro-lamport floor is replaced by exactly the
floor. -/
theorem fee_floor (priorityLevel : String) (instrs : List Instr) (s : String)
    (n : ℤ) (h : parseIntJs s = some n) :
    FeeEstimate priorityLevel instrs (fun _ _ => .ok (some (some s)))
      = .ok (some (max n 10000)) ∧
    FeeEstimate002 priorityLevel instrs (fun _ _ => .ok (some (some s)))
      = .ok (some (max n 10000)) ∧
    (n < 10000 →
      FeeEstimate priorityLevel instrs (fun _ _ => .ok (some (some s)))
        = .ok (some 10000)) := by
  refine ⟨?_, ?_, ?_⟩
  · simp [FeeEstimate, h]
  · simp [FeeEstimate002, h]
  · intro hn
    simp [FeeEstimate, h, max_eq_right hn.le]

/-- Witness for C9: the oracle answers `"5000"`, below the floor; the
returned fee is exactly 10000. -/
theorem fee_floor_witness :
    parseIntJs "5000" = some 5000 ∧
    FeeEstimate "Medium" [Instr.user 0] (fun _ _ => .ok (some (some "5000")))
      = .ok (some 10000) ∧
    FeeEstimate002 "Medium" [Instr.user 0]
      (fun _ _ => .ok (some (some "5000"))) = .ok (some 10000) :=
  ⟨rfl,
    (fee_floor "Medium" [Instr.user 0] "5000" 5000 rfl).2.2 (by omega),
    by
      have h := (fee_floor "Medium" [Instr.user 0] "5000" 5000 rfl).2.1
      have hm : (max (5000 : ℤ) 10000) = 10000 := by norm_num
      rw [hm] at h
      exact h⟩

/-- Claim C10: `src/build.ts` `tx` never alters the caller-supplied
instructions array (it prepends into a spread copy), while the `part_002`
variant unshifts the directives into the caller's own array: after a
successful run with both optimizations, the caller's array holds
`[price, budget, ...original]`. -/
theorem caller_array_effects (o : TxOptions) (env : Env) (u : ℤ)
    (v : Option ℤ)
    (hr : o.rpc ≠ "") (ha : o.account ≠ "") (hc : o.compute = true)
    (hf : o.fees = true)
    (hsim : (env.simulate (Instr.budget 1400000 :: o.instructions)).err
      = false)
    (hu : u = ⌈((env.simulate
      (Instr.budget 1400000 :: o.instructions)).unitsConsumed : ℚ)
        * o.tolerance⌉)
    (hfee2 : FeeEstimate002
      (if o.priority = "Extreme" then "VeryHigh" else o.priority)
      (Instr.budget u :: o.instructions) env.feeOracle = .ok v) :
    (∀ (oAny : TxOptions) (envAny : Env),
      (tx oAny envAny).callerInstructions = oAny.instructions) ∧
    (tx002 o env).callerInstructions
      = Instr.price v :: Instr.budget u :: o.instructions := by
  refine ⟨fun oAny envAny => tx_callerInstructions oAny envAny, ?_⟩
  have h : tx002 o env = tx002Stage3 o env
      (Instr.price v :: Instr.budget u :: o.instructions) ⟨true, true⟩ := by
    simp [tx002, ComputeLimit002, tx002Stage2, hr, ha, hc, hf, hsim, ← hu,
      hfee2]
  rw [h, tx002Stage3_callerInstructions]

/-- Witness for C10: after a successful default-toggle run, the `build.ts`
caller still holds `[user 5]` while the `part_002` caller's array has become
`[price 20000, budget 110, user 5]`. -/
theorem caller_array_effects_witness :
    (tx opts0 env0).callerInstructions = [Instr.user 5] ∧
    (tx002 opts0 env0).callerInstructions
      = [Instr.price (some 20000), Instr.budget 110, Instr.user 5] := by
  have h := caller_array_effects opts0 env0 110 (some 20000) (by decide)
    (by decide) rfl rfl rfl (by
      show (110 : ℤ) = ⌈((100 : ℕ) : ℚ) * ((11 : ℚ) / 10)⌉
      norm_num) rfl
  exact ⟨h.1 opts0 env0, h.2⟩

end Build
